import Mathlib

/-!
Verification of the QuickBudget calculation engine
(`src/core/budget_calculator.py`, `src/core/settings_manager.py`).

Tables are modelled as structures of column lists over `ℚ` (the Python
floats are modelled exactly as rationals); a `pandas.DataFrame` that may
be `None` becomes `Option`; an empty frame becomes a table whose columns
are all `[]`.  Each stage of `BudgetCalculator` is translated loop-body
by loop-body: quantities that a loop writes from input cells become
index functions, and quantities that a loop reads back from the row it
wrote in the previous iteration become structural recursions.
-/

namespace QuickBudget

/-- Policy settings bound to a `BudgetCalculator` (`self.settings`); the
Python dict keys become fields. -/
structure Settings where
  sales_collection_current : ℚ
  sales_collection_next : ℚ
  purchases_payment_current : ℚ
  purchases_payment_next : ℚ
  ending_inventory_pct : ℚ
  external_financing_ratio : ℚ
  working_capital_turnover : ℚ
  beginning_cash : ℚ
deriving DecidableEq

/-- The validated input table: columns `sales_units` and `unit_price`
(the `quarter` label column is display-only and not modelled). -/
structure InputTable where
  sales_units : List ℚ
  unit_price : List ℚ
deriving DecidableEq

/-- Output of `compute_sales_revenue`: the input columns plus
`sales_revenue`. -/
structure RevenueTable where
  sales_units : List ℚ
  unit_price : List ℚ
  sales_revenue : List ℚ
deriving DecidableEq

/-- Output of `compute_collections` (the columns read downstream). -/
structure CollectionsTable where
  sales_revenue : List ℚ
  collections : List ℚ
deriving DecidableEq

/-- Output of `compute_purchases`. -/
structure PurchasesTable where
  sales_units : List ℚ
  unit_price : List ℚ
  desired_ending_inventory : List ℚ
  beginning_inventory : List ℚ
  purchases_units : List ℚ
  purchases_cost : List ℚ
deriving DecidableEq

/-- Output of `compute_cash_budget`. -/
structure CashBudgetTable where
  collections : List ℚ
  disbursements : List ℚ
  beginning_cash_col : List ℚ
  ending_cash : List ℚ
deriving DecidableEq

/-- Output of `compute_income_statement`. -/
structure IncomeStatement where
  total_revenue : List ℚ
  total_cogs : List ℚ
  gross_profit : List ℚ
deriving DecidableEq

/-- Output of `compute_balance_sheet`. -/
structure BalanceSheet where
  cash : List ℚ
  inventory : List ℚ
  receivables : List ℚ
  total_assets : List ℚ
  external_financing : List ℚ
  equity : List ℚ
  liabilities_equity : List ℚ
deriving DecidableEq

/-- The empty `pd.DataFrame()` returned by every guard, as a revenue
table. -/
def RevenueTable.emptyTable : RevenueTable := ⟨[], [], []⟩

def CollectionsTable.emptyTable : CollectionsTable := ⟨[], []⟩

def PurchasesTable.emptyTable : PurchasesTable := ⟨[], [], [], [], [], []⟩

def CashBudgetTable.emptyTable : CashBudgetTable := ⟨[], [], [], []⟩

def IncomeStatement.emptyTable : IncomeStatement := ⟨[], [], []⟩

def BalanceSheet.emptyTable : BalanceSheet := ⟨[], [], [], [], [], [], []⟩

/-- `BudgetCalculator.compute_sales_revenue`: after the `None`/empty
guard, adds `sales_revenue = sales_units * unit_price` element-wise. -/
def compute_sales_revenue (data : Option InputTable) : RevenueTable :=
  match data with
  | none => RevenueTable.emptyTable
  | some d =>
    if d.sales_units = [] then RevenueTable.emptyTable
    else ⟨d.sales_units, d.unit_price, List.zipWith (· * ·) d.sales_units d.unit_price⟩

/-- Loop body of `compute_collections`: current-quarter collections plus
the previous quarter's deferred share when `i > 0`. -/
def collections_at (s : Settings) (sales_revenue : List ℚ) (i : ℕ) : ℚ :=
  sales_revenue.getD i 0 * s.sales_collection_current +
    (if 0 < i then sales_revenue.getD (i - 1) 0 * s.sales_collection_next else 0)

/-- `BudgetCalculator.compute_collections`. -/
def compute_collections (s : Settings) (sales_data : Option RevenueTable) :
    CollectionsTable :=
  match sales_data with
  | none => CollectionsTable.emptyTable
  | some d =>
    if d.sales_revenue = [] then CollectionsTable.emptyTable
    else
      ⟨d.sales_revenue,
       (List.range d.sales_revenue.length).map (collections_at s d.sales_revenue)⟩

/-- Loop body of `compute_purchases` for `desired_ending_inventory`: set
from the next quarter's sales when one exists, otherwise left at the
initialised `0.0` (the loop never writes the last row). -/
def desired_ending_inventory_at (s : Settings) (sales_units : List ℚ) (i : ℕ) : ℚ :=
  if i < sales_units.length - 1 then sales_units.getD (i + 1) 0 * s.ending_inventory_pct
  else 0

/-- Loop body of `compute_purchases` for `beginning_inventory`: the
previous quarter's desired ending inventory, `0.0` for the first row. -/
def beginning_inventory_at (s : Settings) (sales_units : List ℚ) (i : ℕ) : ℚ :=
  if 0 < i then desired_ending_inventory_at s sales_units (i - 1) else 0

/-- Loop body of `compute_purchases` for `purchases_units`. -/
def purchases_units_at (s : Settings) (sales_units : List ℚ) (i : ℕ) : ℚ :=
  sales_units.getD i 0 + desired_ending_inventory_at s sales_units i -
    beginning_inventory_at s sales_units i

/-- Loop body of `compute_purchases` for `purchases_cost`, with the
engine's fixed `cost_per_unit = unit_price * 0.6`. -/
def purchases_cost_at (s : Settings) (sales_units unit_price : List ℚ) (i : ℕ) : ℚ :=
  purchases_units_at s sales_units i * (unit_price.getD i 0 * (0.6 : ℚ))

/-- `BudgetCalculator.compute_purchases`. -/
def compute_purchases (s : Settings) (sales_data : Option RevenueTable) :
    PurchasesTable :=
  match sales_data with
  | none => PurchasesTable.emptyTable
  | some d =>
    if d.sales_units = [] then PurchasesTable.emptyTable
    else
      ⟨d.sales_units, d.unit_price,
       (List.range d.sales_units.length).map (desired_ending_inventory_at s d.sales_units),
       (List.range d.sales_units.length).map (beginning_inventory_at s d.sales_units),
       (List.range d.sales_units.length).map (purchases_units_at s d.sales_units),
       (List.range d.sales_units.length).map (purchases_cost_at s d.sales_units d.unit_price)⟩

/-- Loop body of `compute_cash_budget` for `disbursements`. -/
def disbursements_at (s : Settings) (purchases_cost : List ℚ) (i : ℕ) : ℚ :=
  purchases_cost.getD i 0 * s.purchases_payment_current +
    (if 0 < i then purchases_cost.getD (i - 1) 0 * s.purchases_payment_next else 0)

/-- Loop body of `compute_cash_budget` for `ending_cash`: the loop reads
back the cell it wrote in the previous iteration, which makes the column
a structural recursion. -/
def ending_cash_at (s : Settings) (collections purchases_cost : List ℚ) : ℕ → ℚ
  | 0 => s.beginning_cash + collections.getD 0 0 - disbursements_at s purchases_cost 0
  | i + 1 =>
    ending_cash_at s collections purchases_cost i + collections.getD (i + 1) 0 -
      disbursements_at s purchases_cost (i + 1)

/-- `BudgetCalculator.compute_cash_budget`. -/
def compute_cash_budget (s : Settings) (collections : Option CollectionsTable)
    (purchases : Option PurchasesTable) : CashBudgetTable :=
  match collections, purchases with
  | some c, some p =>
    if c.collections = [] ∨ p.purchases_cost = [] then CashBudgetTable.emptyTable
    else
      ⟨c.collections,
       (List.range c.collections.length).map (disbursements_at s p.purchases_cost),
       (List.range c.collections.length).map (fun _ => s.beginning_cash),
       (List.range c.collections.length).map (ending_cash_at s c.collections p.purchases_cost)⟩
  | _, _ => CashBudgetTable.emptyTable

/-- `BudgetCalculator.compute_income_statement`. -/
def compute_income_statement (sales_data : Option RevenueTable) : IncomeStatement :=
  match sales_data with
  | none => IncomeStatement.emptyTable
  | some d =>
    if d.sales_units = [] then IncomeStatement.emptyTable
    else
      ⟨List.zipWith (· * ·) d.sales_units d.unit_price,
       List.zipWith (fun su up => su * (up * (0.6 : ℚ))) d.sales_units d.unit_price,
       List.zipWith (fun su up => su * up - su * (up * (0.6 : ℚ))) d.sales_units d.unit_price⟩

/-- Loop body of `compute_balance_sheet` for `receivables`: the loop
appends to a plain list and reads its previous element, a structural
recursion. -/
def receivables_at (s : Settings) (sales_revenue : List ℚ) : ℕ → ℚ
  | 0 => sales_revenue.getD 0 0 * (1 - s.sales_collection_current)
  | i + 1 =>
    receivables_at s sales_revenue i +
      sales_revenue.getD (i + 1) 0 * (1 - s.sales_collection_current) -
      sales_revenue.getD i 0 * s.sales_collection_next

/-- `balance_sheet['cash'] = cash_budget['ending_cash']`, per row. -/
def cash_at (cash_budget : CashBudgetTable) (i : ℕ) : ℚ :=
  cash_budget.ending_cash.getD i 0

/-- Inventory valued at cost: `desired_ending_inventory * (unit_price * 0.6)`. -/
def inventory_at (purchases : PurchasesTable) (sales_data : RevenueTable) (i : ℕ) : ℚ :=
  purchases.desired_ending_inventory.getD i 0 * (sales_data.unit_price.getD i 0 * (0.6 : ℚ))

/-- `total_assets = cash + inventory + receivables`, per row. -/
def total_assets_at (s : Settings) (cb : CashBudgetTable) (p : PurchasesTable)
    (sd : RevenueTable) (i : ℕ) : ℚ :=
  cash_at cb i + inventory_at p sd i + receivables_at s sd.sales_revenue i

/-- `external_financing = total_assets * external_financing_ratio`, per row. -/
def external_financing_at (s : Settings) (cb : CashBudgetTable) (p : PurchasesTable)
    (sd : RevenueTable) (i : ℕ) : ℚ :=
  total_assets_at s cb p sd i * Settings.external_financing_ratio s

/-- `equity = total_assets - external_financing` (the plug figure), per row. -/
def equity_at (s : Settings) (cb : CashBudgetTable) (p : PurchasesTable)
    (sd : RevenueTable) (i : ℕ) : ℚ :=
  total_assets_at s cb p sd i - external_financing_at s cb p sd i

/-- `liabilities_equity = external_financing + equity`, per row. -/
def liabilities_equity_at (s : Settings) (cb : CashBudgetTable) (p : PurchasesTable)
    (sd : RevenueTable) (i : ℕ) : ℚ :=
  external_financing_at s cb p sd i + equity_at s cb p sd i

/-- `BudgetCalculator.compute_balance_sheet`. -/
def compute_balance_sheet (s : Settings) (cash_budget : Option CashBudgetTable)
    (purchases : Option PurchasesTable) (sales_data : Option RevenueTable) :
    BalanceSheet :=
  match cash_budget, purchases, sales_data with
  | some cb, some p, some sd =>
    if cb.ending_cash = [] ∨ p.purchases_cost = [] ∨ sd.sales_revenue = [] then
      BalanceSheet.emptyTable
    else
      ⟨(List.range sd.sales_revenue.length).map (cash_at cb),
       (List.range sd.sales_revenue.length).map (inventory_at p sd),
       (List.range sd.sales_revenue.length).map (receivables_at s sd.sales_revenue),
       (List.range sd.sales_revenue.length).map (total_assets_at s cb p sd),
       (List.range sd.sales_revenue.length).map (external_financing_at s cb p sd),
       (List.range sd.sales_revenue.length).map (equity_at s cb p sd),
       (List.range sd.sales_revenue.length).map (liabilities_equity_at s cb p sd)⟩
  | _, _, _ => BalanceSheet.emptyTable

/-- The full stage sequence exactly as `MainWindow.save_all_reports`
composes it (`src/ui/main_window.py`, lines 442-447). -/
def run_pipeline (s : Settings) (data : Option InputTable) :
    RevenueTable × CollectionsTable × PurchasesTable × CashBudgetTable ×
      IncomeStatement × BalanceSheet :=
  let sales_data := compute_sales_revenue data
  let collections := compute_collections s (some sales_data)
  let purchases := compute_purchases s (some sales_data)
  let cash_budget := compute_cash_budget s (some collections) (some purchases)
  let income_stmt := compute_income_statement (some sales_data)
  let balance_sheet := compute_balance_sheet s (some cash_budget) (some purchases) (some sales_data)
  (sales_data, collections, purchases, cash_budget, income_stmt, balance_sheet)

/-- Python `dict.get(key)` on a string-keyed mapping of numbers. -/
def dictGet (d : List (String × ℚ)) (key : String) : Option ℚ :=
  (d.find? (fun p => p.1 == key)).map Prod.snd

/-- Python `d[key] = v`: the mapping afterwards binds `key` to `v` and
every other key to what it was bound to before. -/
def dictSet (d : List (String × ℚ)) (key : String) (v : ℚ) : List (String × ℚ) :=
  (key, v) :: d.filter (fun p => p.1 != key)

/-- `SettingsManager.default_settings` (`settings_manager.py`). -/
def default_settings : List (String × ℚ) :=
  [("sales_collection_current", 0.6), ("sales_collection_next", 0.4),
   ("purchases_payment_current", 0.5), ("purchases_payment_next", 0.5),
   ("ending_inventory_pct", 0.2), ("external_financing_ratio", 0.3),
   ("working_capital_turnover", 2.0), ("beginning_cash", 100000)]

/-- The mutable part of a `SettingsManager` (`self.settings`);
`self.default_settings` is the fixed dictionary above. -/
structure SettingsManager where
  settings : List (String × ℚ)
deriving DecidableEq

/-- `SettingsManager.get_setting`:
`self.settings.get(key, self.default_settings.get(key, 0.0))`. -/
def get_setting (m : SettingsManager) (key : String) : ℚ :=
  (dictGet m.settings key).getD ((dictGet default_settings key).getD 0)

/-- A Python value passed where a float is expected: either one that
`float(...)` converts (floats, ints, numeric strings) or one on which it
raises `ValueError`/`TypeError`. -/
inductive PyValue where
  | num (q : ℚ)
  | nonNumeric
deriving DecidableEq

/-- `float(value)`, with `none` for a raised conversion error. -/
def pyFloat : PyValue → Option ℚ
  | .num q => some q
  | .nonNumeric => none

/-- `SettingsManager.set_setting`: only keys present in
`default_settings` are accepted; a `float(value)` failure is caught and
reported as `False` before any assignment happens. -/
def set_setting (m : SettingsManager) (key : String) (value : PyValue) :
    SettingsManager × Bool :=
  if (dictGet default_settings key).isSome then
    match pyFloat value with
    | some q => (⟨dictSet m.settings key q⟩, true)
    | none => (m, false)
  else (m, false)

/-- The four-quarter sample fixture of spec §8 (collect 0.7/0.3, pay
0.6/0.4, ending-inventory 0.2, external-financing 0.1, working-capital
turnover 2.0, beginning cash 0). -/
def sampleSettings : Settings := ⟨0.7, 0.3, 0.6, 0.4, 0.2, 0.1, 2.0, 0⟩

/-- The four-quarter sample input of spec §8. -/
def sampleInput : InputTable := ⟨[10000, 12000, 15000, 13000], [20, 20, 20, 20]⟩

/-- Revenue table of the sample fixture. -/
def sampleRevenue : RevenueTable := compute_sales_revenue (some sampleInput)

/-- A two-period revenue table used to probe the last-period boundary of
`compute_purchases`. -/
def twoPeriodRevenue : RevenueTable := ⟨[10, 10], [5, 5], [50, 50]⟩

/-- Element `i` of `(List.range n).map f` is `f i`. -/
theorem getD_range_map (f : ℕ → ℚ) {n i : ℕ} (h : i < n) :
    ((List.range n).map f).getD i 0 = f i := by
  rw [List.getD_eq_getElem?_getD, List.getElem?_map, List.getElem?_range h]
  rfl

/-- Claim C1: on every non-empty input, the balance sheet satisfies
`liabilities_equity[i] = total_assets[i]` exactly for every period `i`,
with `external_financing[i] = total_assets[i] * external_financing_ratio`
and `equity[i] = total_assets[i] - external_financing[i]`. -/
theorem c1_balance_sheet_identity (s : Settings) (cb : CashBudgetTable)
    (p : PurchasesTable) (sd : RevenueTable)
    (hcb : cb.ending_cash ≠ []) (hp : p.purchases_cost ≠ [])
    (hsd : sd.sales_revenue ≠ []) (i : ℕ) (hi : i < sd.sales_revenue.length) :
    (compute_balance_sheet s (some cb) (some p) (some sd)).liabilities_equity.getD i 0 =
        (compute_balance_sheet s (some cb) (some p) (some sd)).total_assets.getD i 0 ∧
      (compute_balance_sheet s (some cb) (some p) (some sd)).external_financing.getD i 0 =
        (compute_balance_sheet s (some cb) (some p) (some sd)).total_assets.getD i 0 *
          Settings.external_financing_ratio s ∧
      (compute_balance_sheet s (some cb) (some p) (some sd)).equity.getD i 0 =
        (compute_balance_sheet s (some cb) (some p) (some sd)).total_assets.getD i 0 -
          (compute_balance_sheet s (some cb) (some p) (some sd)).external_financing.getD i 0 := by
  have hn : ¬(cb.ending_cash = [] ∨ p.purchases_cost = [] ∨ sd.sales_revenue = []) := by
    simp [hcb, hp, hsd]
  simp only [compute_balance_sheet, if_neg hn]
  simp only [getD_range_map (liabilities_equity_at s cb p sd) hi,
    getD_range_map (total_assets_at s cb p sd) hi,
    getD_range_map (external_financing_at s cb p sd) hi,
    getD_range_map (equity_at s cb p sd) hi]
  refine ⟨?_, rfl, rfl⟩
  simp only [liabilities_equity_at, equity_at]
  ring

/-- Witness for C1 on a concrete one-period instance. -/
theorem c1_balance_sheet_identity_witness :
    (compute_balance_sheet sampleSettings (some ⟨[140], [84], [84], [140]⟩)
          (some ⟨[10], [5], [2], [0], [12], [36]⟩) (some ⟨[10], [5], [50]⟩)).liabilities_equity.getD 0 0 =
        (compute_balance_sheet sampleSettings (some ⟨[140], [84], [84], [140]⟩)
          (some ⟨[10], [5], [2], [0], [12], [36]⟩) (some ⟨[10], [5], [50]⟩)).total_assets.getD 0 0 ∧
      (compute_balance_sheet sampleSettings (some ⟨[140], [84], [84], [140]⟩)
          (some ⟨[10], [5], [2], [0], [12], [36]⟩) (some ⟨[10], [5], [50]⟩)).external_financing.getD 0 0 =
        (compute_balance_sheet sampleSettings (some ⟨[140], [84], [84], [140]⟩)
          (some ⟨[10], [5], [2], [0], [12], [36]⟩) (some ⟨[10], [5], [50]⟩)).total_assets.getD 0 0 *
          Settings.external_financing_ratio sampleSettings ∧
      (compute_balance_sheet sampleSettings (some ⟨[140], [84], [84], [140]⟩)
          (some ⟨[10], [5], [2], [0], [12], [36]⟩) (some ⟨[10], [5], [50]⟩)).equity.getD 0 0 =
        (compute_balance_sheet sampleSettings (some ⟨[140], [84], [84], [140]⟩)
          (some ⟨[10], [5], [2], [0], [12], [36]⟩) (some ⟨[10], [5], [50]⟩)).total_assets.getD 0 0 -
          (compute_balance_sheet sampleSettings (some ⟨[140], [84], [84], [140]⟩)
            (some ⟨[10], [5], [2], [0], [12], [36]⟩) (some ⟨[10], [5], [50]⟩)).external_financing.getD 0 0 :=
  c1_balance_sheet_identity sampleSettings ⟨[140], [84], [84], [140]⟩
    ⟨[10], [5], [2], [0], [12], [36]⟩ ⟨[10], [5], [50]⟩
    (by decide) (by decide) (by decide) 0 (by decide)

/-- Claim C2: on every non-empty input, the cash budget satisfies
`disbursements[i] = purchases_cost[i] * pay_current + (i>0 ?
purchases_cost[i-1] * pay_next : 0)`, `ending_cash[0] = beginning_cash +
collections[0] - disbursements[0]`, and `ending_cash[i] =
ending_cash[i-1] + collections[i] - disbursements[i]` for `i > 0`. -/
theorem c2_cash_budget_recurrences (s : Settings) (c : CollectionsTable)
    (p : PurchasesTable) (hc : c.collections ≠ []) (hp : p.purchases_cost ≠ [])
    (i : ℕ) (hi : i < c.collections.length) :
    (compute_cash_budget s (some c) (some p)).disbursements.getD i 0 =
        p.purchases_cost.getD i 0 * s.purchases_payment_current +
          (if 0 < i then p.purchases_cost.getD (i - 1) 0 * s.purchases_payment_next else 0) ∧
      (compute_cash_budget s (some c) (some p)).ending_cash.getD 0 0 =
        s.beginning_cash + c.collections.getD 0 0 -
          (compute_cash_budget s (some c) (some p)).disbursements.getD 0 0 ∧
      (0 < i →
        (compute_cash_budget s (some c) (some p)).ending_cash.getD i 0 =
          (compute_cash_budget s (some c) (some p)).ending_cash.getD (i - 1) 0 +
            c.collections.getD i 0 -
            (compute_cash_budget s (some c) (some p)).disbursements.getD i 0) := by
  have hn : ¬(c.collections = [] ∨ p.purchases_cost = []) := by simp [hc, hp]
  have h0 : 0 < c.collections.length := List.length_pos.mpr hc
  have hi1 : i - 1 < c.collections.length := lt_of_le_of_lt (Nat.sub_le i 1) hi
  simp only [compute_cash_budget, if_neg hn]
  simp only [getD_range_map (disbursements_at s p.purchases_cost) hi,
    getD_range_map (disbursements_at s p.purchases_cost) h0,
    getD_range_map (ending_cash_at s c.collections p.purchases_cost) hi,
    getD_range_map (ending_cash_at s c.collections p.purchases_cost) h0,
    getD_range_map (ending_cash_at s c.collections p.purchases_cost) hi1]
  refine ⟨rfl, rfl, ?_⟩
  intro hpos
  cases i with
  | zero => exact absurd hpos (lt_irrefl 0)
  | succ j => simp only [Nat.add_sub_cancel]; rfl

/-- Witness for C2 on a concrete two-period instance. -/
theorem c2_cash_budget_recurrences_witness :
    (compute_cash_budget sampleSettings (some ⟨[50, 50], [35, 50]⟩)
          (some ⟨[10, 10], [5, 5], [2, 0], [0, 2], [12, 8], [36, 24]⟩)).disbursements.getD 1 0 =
        (⟨[10, 10], [5, 5], [2, 0], [0, 2], [12, 8], [36, 24]⟩ :
            PurchasesTable).purchases_cost.getD 1 0 * sampleSettings.purchases_payment_current +
          (if 0 < 1 then
            (⟨[10, 10], [5, 5], [2, 0], [0, 2], [12, 8], [36, 24]⟩ :
                PurchasesTable).purchases_cost.getD (1 - 1) 0 * sampleSettings.purchases_payment_next
          else 0) ∧
      (compute_cash_budget sampleSettings (some ⟨[50, 50], [35, 50]⟩)
          (some ⟨[10, 10], [5, 5], [2, 0], [0, 2], [12, 8], [36, 24]⟩)).ending_cash.getD 0 0 =
        sampleSettings.beginning_cash +
          (⟨[50, 50], [35, 50]⟩ : CollectionsTable).collections.getD 0 0 -
          (compute_cash_budget sampleSettings (some ⟨[50, 50], [35, 50]⟩)
            (some ⟨[10, 10], [5, 5], [2, 0], [0, 2], [12, 8], [36, 24]⟩)).disbursements.getD 0 0 ∧
      (0 < 1 →
        (compute_cash_budget sampleSettings (some ⟨[50, 50], [35, 50]⟩)
            (some ⟨[10, 10], [5, 5], [2, 0], [0, 2], [12, 8], [36, 24]⟩)).ending_cash.getD 1 0 =
          (compute_cash_budget sampleSettings (some ⟨[50, 50], [35, 50]⟩)
              (some ⟨[10, 10], [5, 5], [2, 0], [0, 2], [12, 8], [36, 24]⟩)).ending_cash.getD (1 - 1) 0 +
            (⟨[50, 50], [35, 50]⟩ : CollectionsTable).collections.getD 1 0 -
            (compute_cash_budget sampleSettings (some ⟨[50, 50], [35, 50]⟩)
              (some ⟨[10, 10], [5, 5], [2, 0], [0, 2], [12, 8], [36, 24]⟩)).disbursements.getD 1 0) :=
  c2_cash_budget_recurrences sampleSettings ⟨[50, 50], [35, 50]⟩
    ⟨[10, 10], [5, 5], [2, 0], [0, 2], [12, 8], [36, 24]⟩
    (by decide) (by decide) 1 (by decide)

/-- Counterexample to claim C3 as stated: on a two-period table with
`sales_units = [10, 10]` and `ending_inventory_pct = 0.2`, the engine
leaves the last period's `desired_ending_inventory` at `0`, not at
`0.2 * 10 = 2` as the claimed reuse-own-sales boundary policy would
give. -/
theorem c3_last_period_counterexample :
    ¬ ((compute_purchases sampleSettings (some twoPeriodRevenue)).desired_ending_inventory.getD 1 0 =
        sampleSettings.ending_inventory_pct * twoPeriodRevenue.sales_units.getD 1 0) := by
  have hne : twoPeriodRevenue.sales_units ≠ [] := by decide
  have h1 : (1 : ℕ) < twoPeriodRevenue.sales_units.length := by decide
  simp only [compute_purchases, if_neg hne]
  rw [getD_range_map (desired_ending_inventory_at sampleSettings twoPeriodRevenue.sales_units) h1]
  simp [desired_ending_inventory_at, twoPeriodRevenue, sampleSettings]
  norm_num

/-- Claim C3 (amended): on every non-empty input, `compute_purchases`
leaves the LAST period's `desired_ending_inventory` at its initialised
`0.0` (the loop guard `i < len - 1` skips the last row), while for every
`i` before the last, `desired_ending_inventory[i] = ending_inventory_pct
* sales_units[i+1]`. -/
theorem c3_desired_ending_inventory (s : Settings) (sd : RevenueTable)
    (hsd : sd.sales_units ≠ []) (i : ℕ) (hi : i < sd.sales_units.length) :
    (i = sd.sales_units.length - 1 →
        (compute_purchases s (some sd)).desired_ending_inventory.getD i 0 = 0) ∧
      (i < sd.sales_units.length - 1 →
        (compute_purchases s (some sd)).desired_ending_inventory.getD i 0 =
          s.ending_inventory_pct * sd.sales_units.getD (i + 1) 0) := by
  simp only [compute_purchases, if_neg hsd]
  simp only [getD_range_map (desired_ending_inventory_at s sd.sales_units) hi]
  constructor
  · intro hlast
    simp [desired_ending_inventory_at, hlast]
  · intro hlt
    simp only [desired_ending_inventory_at, if_pos hlt]
    ring

/-- Witness for amended C3 on the two-period table, at both periods. -/
theorem c3_desired_ending_inventory_witness :
    ((0 : ℕ) < twoPeriodRevenue.sales_units.length - 1 →
        (compute_purchases sampleSettings (some twoPeriodRevenue)).desired_ending_inventory.getD 0 0 =
          sampleSettings.ending_inventory_pct * twoPeriodRevenue.sales_units.getD (0 + 1) 0) ∧
      ((1 : ℕ) = twoPeriodRevenue.sales_units.length - 1 →
        (compute_purchases sampleSettings (some twoPeriodRevenue)).desired_ending_inventory.getD 1 0 = 0) :=
  ⟨(c3_desired_ending_inventory sampleSettings twoPeriodRevenue (by decide) 0 (by decide)).2,
   (c3_desired_ending_inventory sampleSettings twoPeriodRevenue (by decide) 1 (by decide)).1⟩

/-- Claim C4: on every non-empty revenue table, `collections[i] =
sales_revenue[i] * collect_current + (i>0 ? sales_revenue[i-1] *
collect_next : 0)`; on the four-quarter sample with collect 0.7/0.3 the
revenue column is `[200000, 240000, 300000, 260000]`, `collections[0] =
140000` and `collections[1] = 228000`. -/
theorem c4_collections_schedule (s : Settings) (sd : RevenueTable)
    (hsd : sd.sales_revenue ≠ []) (i : ℕ) (hi : i < sd.sales_revenue.length) :
    (compute_collections s (some sd)).collections.getD i 0 =
        sd.sales_revenue.getD i 0 * s.sales_collection_current +
          (if 0 < i then sd.sales_revenue.getD (i - 1) 0 * s.sales_collection_next else 0) ∧
      sampleRevenue.sales_revenue = [200000, 240000, 300000, 260000] ∧
      (compute_collections sampleSettings (some sampleRevenue)).collections.getD 0 0 = 140000 ∧
      (compute_collections sampleSettings (some sampleRevenue)).collections.getD 1 0 = 228000 := by
  refine ⟨?_, ?_, ?_, ?_⟩
  · simp only [compute_collections, if_neg hsd]
    simp only [getD_range_map (collections_at s sd.sales_revenue) hi]
    rfl
  · simp [sampleRevenue, compute_sales_revenue, sampleInput]
    norm_num
  · simp [compute_collections, sampleRevenue, compute_sales_revenue, sampleInput,
      sampleSettings, collections_at, List.range_succ]
    norm_num
  · simp [compute_collections, sampleRevenue, compute_sales_revenue, sampleInput,
      sampleSettings, collections_at, List.range_succ]
    norm_num

/-- Witness for C4 at period 1 of the four-quarter sample. -/
theorem c4_collections_schedule_witness :
    (compute_collections sampleSettings (some sampleRevenue)).collections.getD 1 0 =
        sampleRevenue.sales_revenue.getD 1 0 * sampleSettings.sales_collection_current +
          (if 0 < 1 then
            sampleRevenue.sales_revenue.getD (1 - 1) 0 * sampleSettings.sales_collection_next
          else 0) ∧
      sampleRevenue.sales_revenue = [200000, 240000, 300000, 260000] ∧
      (compute_collections sampleSettings (some sampleRevenue)).collections.getD 0 0 = 140000 ∧
      (compute_collections sampleSettings (some sampleRevenue)).collections.getD 1 0 = 228000 :=
  c4_collections_schedule sampleSettings sampleRevenue (by decide) 1 (by decide)

/-- Claim C5: on every non-empty input the balance-sheet receivables
column satisfies `receivables[0] = sales_revenue[0] * (1 -
collect_current)` and, for `i > 0`, `receivables[i] = receivables[i-1] +
sales_revenue[i] * (1 - collect_current) - sales_revenue[i-1] *
collect_next`. -/
theorem c5_receivables_recurrence (s : Settings) (cb : CashBudgetTable)
    (p : PurchasesTable) (sd : RevenueTable)
    (hcb : cb.ending_cash ≠ []) (hp : p.purchases_cost ≠ [])
    (hsd : sd.sales_revenue ≠ []) (i : ℕ) (hi : i < sd.sales_revenue.length) :
    (compute_balance_sheet s (some cb) (some p) (some sd)).receivables.getD 0 0 =
        sd.sales_revenue.getD 0 0 * (1 - s.sales_collection_current) ∧
      (0 < i →
        (compute_balance_sheet s (some cb) (some p) (some sd)).receivables.getD i 0 =
          (compute_balance_sheet s (some cb) (some p) (some sd)).receivables.getD (i - 1) 0 +
            sd.sales_revenue.getD i 0 * (1 - s.sales_collection_current) -
            sd.sales_revenue.getD (i - 1) 0 * s.sales_collection_next) := by
  have hn : ¬(cb.ending_cash = [] ∨ p.purchases_cost = [] ∨ sd.sales_revenue = []) := by
    simp [hcb, hp, hsd]
  have h0 : 0 < sd.sales_revenue.length := List.length_pos.mpr hsd
  have hi1 : i - 1 < sd.sales_revenue.length := lt_of_le_of_lt (Nat.sub_le i 1) hi
  simp only [compute_balance_sheet, if_neg hn]
  simp only [getD_range_map (receivables_at s sd.sales_revenue) hi,
    getD_range_map (receivables_at s sd.sales_revenue) h0,
    getD_range_map (receivables_at s sd.sales_revenue) hi1]
  refine ⟨rfl, ?_⟩
  intro hpos
  cases i with
  | zero => exact absurd hpos (lt_irrefl 0)
  | succ j => simp only [Nat.add_sub_cancel]; rfl

/-- Witness for C5 on a concrete two-period instance. -/
theorem c5_receivables_recurrence_witness :
    (compute_balance_sheet sampleSettings (some ⟨[50, 50], [35, 50], [0, 0], [15, 15]⟩)
          (some ⟨[10, 10], [5, 5], [2, 0], [0, 2], [12, 8], [36, 24]⟩)
          (some twoPeriodRevenue)).receivables.getD 0 0 =
        twoPeriodRevenue.sales_revenue.getD 0 0 * (1 - sampleSettings.sales_collection_current) ∧
      (0 < 1 →
        (compute_balance_sheet sampleSettings (some ⟨[50, 50], [35, 50], [0, 0], [15, 15]⟩)
            (some ⟨[10, 10], [5, 5], [2, 0], [0, 2], [12, 8], [36, 24]⟩)
            (some twoPeriodRevenue)).receivables.getD 1 0 =
          (compute_balance_sheet sampleSettings (some ⟨[50, 50], [35, 50], [0, 0], [15, 15]⟩)
              (some ⟨[10, 10], [5, 5], [2, 0], [0, 2], [12, 8], [36, 24]⟩)
              (some twoPeriodRevenue)).receivables.getD (1 - 1) 0 +
            twoPeriodRevenue.sales_revenue.getD 1 0 * (1 - sampleSettings.sales_collection_current) -
            twoPeriodRevenue.sales_revenue.getD (1 - 1) 0 * sampleSettings.sales_collection_next) :=
  c5_receivables_recurrence sampleSettings ⟨[50, 50], [35, 50], [0, 0], [15, 15]⟩
    ⟨[10, 10], [5, 5], [2, 0], [0, 2], [12, 8], [36, 24]⟩ twoPeriodRevenue
    (by decide) (by decide) (by decide) 1 (by decide)

/-- Claim C6: on every non-empty input, `beginning_inventory[0] = 0`,
`beginning_inventory[i] = desired_ending_inventory[i-1]` for `i > 0`,
`purchases_units[i] = sales_units[i] + desired_ending_inventory[i] -
beginning_inventory[i]`, and `purchases_cost[i] = purchases_units[i] *
(unit_price[i] * 0.6)`. -/
theorem c6_purchases_columns (s : Settings) (sd : RevenueTable)
    (hsd : sd.sales_units ≠ []) (i : ℕ) (hi : i < sd.sales_units.length) :
    (compute_purchases s (some sd)).beginning_inventory.getD 0 0 = 0 ∧
      (0 < i →
        (compute_purchases s (some sd)).beginning_inventory.getD i 0 =
          (compute_purchases s (some sd)).desired_ending_inventory.getD (i - 1) 0) ∧
      (compute_purchases s (some sd)).purchases_units.getD i 0 =
        sd.sales_units.getD i 0 +
          (compute_purchases s (some sd)).desired_ending_inventory.getD i 0 -
          (compute_purchases s (some sd)).beginning_inventory.getD i 0 ∧
      (compute_purchases s (some sd)).purchases_cost.getD i 0 =
        (compute_purchases s (some sd)).purchases_units.getD i 0 *
          (sd.unit_price.getD i 0 * (0.6 : ℚ)) := by
  have h0 : 0 < sd.sales_units.length := List.length_pos.mpr hsd
  have hi1 : i - 1 < sd.sales_units.length := lt_of_le_of_lt (Nat.sub_le i 1) hi
  simp only [compute_purchases, if_neg hsd]
  simp only [getD_range_map (desired_ending_inventory_at s sd.sales_units) hi,
    getD_range_map (desired_ending_inventory_at s sd.sales_units) hi1,
    getD_range_map (beginning_inventory_at s sd.sales_units) hi,
    getD_range_map (beginning_inventory_at s sd.sales_units) h0,
    getD_range_map (purchases_units_at s sd.sales_units) hi,
    getD_range_map (purchases_cost_at s sd.sales_units sd.unit_price) hi]
  refine ⟨by simp [beginning_inventory_at], ?_, rfl, rfl⟩
  intro hpos
  simp only [beginning_inventory_at, if_pos hpos]

/-- Witness for C6 at period 1 of the two-period table. -/
theorem c6_purchases_columns_witness :
    (compute_purchases sampleSettings (some twoPeriodRevenue)).beginning_inventory.getD 0 0 = 0 ∧
      (0 < 1 →
        (compute_purchases sampleSettings (some twoPeriodRevenue)).beginning_inventory.getD 1 0 =
          (compute_purchases sampleSettings (some twoPeriodRevenue)).desired_ending_inventory.getD (1 - 1) 0) ∧
      (compute_purchases sampleSettings (some twoPeriodRevenue)).purchases_units.getD 1 0 =
        twoPeriodRevenue.sales_units.getD 1 0 +
          (compute_purchases sampleSettings (some twoPeriodRevenue)).desired_ending_inventory.getD 1 0 -
          (compute_purchases sampleSettings (some twoPeriodRevenue)).beginning_inventory.getD 1 0 ∧
      (compute_purchases sampleSettings (some twoPeriodRevenue)).purchases_cost.getD 1 0 =
        (compute_purchases sampleSettings (some twoPeriodRevenue)).purchases_units.getD 1 0 *
          (twoPeriodRevenue.unit_price.getD 1 0 * (0.6 : ℚ)) :=
  c6_purchases_columns sampleSettings twoPeriodRevenue (by decide) 1 (by decide)

/-- Claim C7: every stage of the engine returns an empty result, without
any error path, when given a null (`None`) or empty input table — also
when only one of a multi-input stage's tables is null or empty. -/
theorem c7_empty_input_no_op (s : Settings) (rt : RevenueTable)
    (c : CollectionsTable) (p : PurchasesTable) (cb : CashBudgetTable) :
    compute_sales_revenue none = RevenueTable.emptyTable ∧
      compute_sales_revenue (some ⟨[], []⟩) = RevenueTable.emptyTable ∧
      compute_collections s none = CollectionsTable.emptyTable ∧
      compute_collections s (some RevenueTable.emptyTable) = CollectionsTable.emptyTable ∧
      compute_purchases s none = PurchasesTable.emptyTable ∧
      compute_purchases s (some RevenueTable.emptyTable) = PurchasesTable.emptyTable ∧
      compute_cash_budget s none (some p) = CashBudgetTable.emptyTable ∧
      compute_cash_budget s (some c) none = CashBudgetTable.emptyTable ∧
      compute_cash_budget s (some CollectionsTable.emptyTable) (some p) = CashBudgetTable.emptyTable ∧
      compute_cash_budget s (some c) (some PurchasesTable.emptyTable) = CashBudgetTable.emptyTable ∧
      compute_income_statement none = IncomeStatement.emptyTable ∧
      compute_income_statement (some RevenueTable.emptyTable) = IncomeStatement.emptyTable ∧
      compute_balance_sheet s none (some p) (some rt) = BalanceSheet.emptyTable ∧
      compute_balance_sheet s (some cb) none (some rt) = BalanceSheet.emptyTable ∧
      compute_balance_sheet s (some cb) (some p) none = BalanceSheet.emptyTable ∧
      compute_balance_sheet s (some CashBudgetTable.emptyTable) (some p) (some rt) = BalanceSheet.emptyTable ∧
      compute_balance_sheet s (some cb) (some PurchasesTable.emptyTable) (some rt) = BalanceSheet.emptyTable ∧
      compute_balance_sheet s (some cb) (some p) (some RevenueTable.emptyTable) = BalanceSheet.emptyTable := by
  refine ⟨rfl, ?_, rfl, ?_, rfl, ?_, rfl, ?_, ?_, ?_, rfl, ?_, rfl, ?_, ?_, ?_, ?_, ?_⟩ <;>
    simp [compute_sales_revenue, compute_collections, compute_purchases,
      compute_cash_budget, compute_income_statement, compute_balance_sheet,
      RevenueTable.emptyTable, CollectionsTable.emptyTable, PurchasesTable.emptyTable,
      CashBudgetTable.emptyTable, BalanceSheet.emptyTable, IncomeStatement.emptyTable]

/-- Claim C8: `get_setting` on a manager whose settings mapping lacks a
key that is present in `default_settings` returns the documented default
for that key, and the documented defaults are exactly collection
0.6/0.4, payment 0.5/0.5, ending-inventory 0.2, external-financing 0.3,
working-capital turnover 2.0, beginning cash 100000. -/
theorem c8_get_setting_defaults (m : SettingsManager) (k : String) (v : ℚ)
    (hm : dictGet m.settings k = none) (hd : dictGet default_settings k = some v) :
    get_setting m k = v ∧
      dictGet default_settings "sales_collection_current" = some 0.6 ∧
      dictGet default_settings "sales_collection_next" = some 0.4 ∧
      dictGet default_settings "purchases_payment_current" = some 0.5 ∧
      dictGet default_settings "purchases_payment_next" = some 0.5 ∧
      dictGet default_settings "ending_inventory_pct" = some 0.2 ∧
      dictGet default_settings "external_financing_ratio" = some 0.3 ∧
      dictGet default_settings "working_capital_turnover" = some 2.0 ∧
      dictGet default_settings "beginning_cash" = some 100000 := by
  refine ⟨?_, rfl, rfl, rfl, rfl, rfl, rfl, rfl, rfl⟩
  simp [get_setting, hm, hd]

/-- Witness for C8: an empty settings mapping falls back to the default
100000 for `beginning_cash`. -/
theorem c8_get_setting_defaults_witness :
    get_setting ⟨[]⟩ "beginning_cash" = 100000 ∧
      dictGet default_settings "sales_collection_current" = some 0.6 ∧
      dictGet default_settings "sales_collection_next" = some 0.4 ∧
      dictGet default_settings "purchases_payment_current" = some 0.5 ∧
      dictGet default_settings "purchases_payment_next" = some 0.5 ∧
      dictGet default_settings "ending_inventory_pct" = some 0.2 ∧
      dictGet default_settings "external_financing_ratio" = some 0.3 ∧
      dictGet default_settings "working_capital_turnover" = some 2.0 ∧
      dictGet default_settings "beginning_cash" = some 100000 :=
  c8_get_setting_defaults ⟨[]⟩ "beginning_cash" 100000 rfl rfl

/-- Claim C10: `set_setting` rejects keys outside `default_settings`
(returns `False`, mapping unchanged); for a known key it stores the
converted float and returns `True` when the value converts, and returns
`False` with the mapping unchanged when `float(value)` raises. -/
theorem c10_set_setting_behaviour (m : SettingsManager) (k : String)
    (v : PyValue) (q : ℚ) :
    (dictGet default_settings k = none → set_setting m k v = (m, false)) ∧
      (dictGet default_settings k ≠ none → pyFloat v = some q →
        (set_setting m k v).2 = true ∧
          dictGet (set_setting m k v).1.settings k = some q) ∧
      (pyFloat v = none → set_setting m k v = (m, false)) := by
  refine ⟨?_, ?_, ?_⟩
  · intro h
    simp [set_setting, h]
  · intro h1 h2
    have h1' : (dictGet default_settings k).isSome = true :=
      Option.isSome_iff_ne_none.mpr h1
    unfold set_setting
    rw [if_pos h1', h2]
    exact ⟨rfl, by simp [dictGet, dictSet]⟩
  · intro h
    cases v with
    | num q2 => simp [pyFloat] at h
    | nonNumeric => simp [set_setting, pyFloat]

/-- Witness for C10: a concrete rejected key, a concrete accepted
update, and a concrete non-convertible value. -/
theorem c10_set_setting_behaviour_witness :
    set_setting ⟨[]⟩ "bogus" (PyValue.num 1) = (⟨[]⟩, false) ∧
      ((set_setting ⟨[]⟩ "beginning_cash" (PyValue.num 5)).2 = true ∧
        dictGet (set_setting ⟨[]⟩ "beginning_cash" (PyValue.num 5)).1.settings
          "beginning_cash" = some 5) ∧
      set_setting ⟨[]⟩ "beginning_cash" PyValue.nonNumeric = (⟨[]⟩, false) :=
  ⟨(c10_set_setting_behaviour ⟨[]⟩ "bogus" (PyValue.num 1) 1).1 rfl,
   (c10_set_setting_behaviour ⟨[]⟩ "beginning_cash" (PyValue.num 5) 5).2.1
     (by simp [default_settings, dictGet]) rfl,
   (c10_set_setting_behaviour ⟨[]⟩ "beginning_cash" PyValue.nonNumeric 0).2.2 rfl⟩

/-- Claim C9: the full pipeline is deterministic — two runs of the stage
sequence with identical input table and settings produce identical
outputs. -/
theorem c9_pipeline_deterministic (s : Settings) (data : Option InputTable) :
    run_pipeline s data = run_pipeline s data := rfl

end QuickBudget
